import Mathlib

/-!
Verification of the movie-night-decider backend (src/backend/database.py and
src/backend/main.py) against its natural-language specification.

The SQLite-backed store is shallowly embedded as a pure record of row lists
(`DBState`), one list per table, mirroring the four tables created in
`Database.create_tables`.  Each Python method that the claims mention is
translated into a pure Lean function over `DBState`; SQL queries are
translated clause by clause (WHERE → `List.filter`, GROUP BY existence →
`dedup` of the grouping key over the selected rows, COUNT(DISTINCT x) →
`List.dedup` length, LEFT JOIN row counting → product of row counts).
Timestamps (`datetime.now().isoformat()`) and random draws are passed in as
explicit parameters, since they are the only impure inputs these functions
consume.
-/

namespace MovieNight

/-- Row of the `rooms` table: room_code (PRIMARY KEY), created_at, status. -/
structure RoomRow where
  room_code : String
  created_at : Nat
  status : String
deriving DecidableEq

/-- Row of the `participants` table: user_id (PRIMARY KEY), username,
room_code, joined_at. -/
structure ParticipantRow where
  user_id : String
  username : String
  room_code : String
  joined_at : Nat
deriving DecidableEq

/-- Row of the `movies` table: id (AUTOINCREMENT), room_code, movie_id (the
TMDB id), movie_data (the JSON payload blob, kept opaque as a string). -/
structure MovieRow where
  id : Nat
  room_code : String
  movie_id : Int
  movie_data : String
deriving DecidableEq

/-- Row of the `votes` table: id (AUTOINCREMENT), user_id, movie_id,
room_code, vote (1 = YES, 0 = NO, stored as INTEGER), voted_at. -/
structure VoteRow where
  id : Nat
  user_id : String
  movie_id : Int
  room_code : String
  vote : Int
  voted_at : Nat
deriving DecidableEq

/-- The whole SQLite database: the four tables plus the AUTOINCREMENT
counter for `votes.id` (the only autoincrement id the claims depend on). -/
structure DBState where
  rooms : List RoomRow
  participants : List ParticipantRow
  movies : List MovieRow
  votes : List VoteRow
  next_vote_id : Nat
deriving DecidableEq

/-- The empty database, as produced by `create_tables` on a fresh file. -/
def emptyDB : DBState := ⟨[], [], [], [], 0⟩

/-- `SELECT COUNT(*) FROM participants WHERE room_code = ?` — the
participant count used by `get_matched_movies`, `count_matched_movies`
and `get_vote_progress`. -/
def participant_count (s : DBState) (rc : String) : Nat :=
  (s.participants.filter (fun p => p.room_code == rc)).length

/-- `Database.join_room`: check the room exists (`SELECT room_code FROM
rooms WHERE room_code = ?`); if not, return `none` leaving the store
untouched; otherwise insert a participant row carrying the freshly drawn
16-character `new_id` and return it.  The random draw and the timestamp are
explicit parameters. -/
def join_room (s : DBState) (rc username new_id : String) (now : Nat) :
    Option String × DBState :=
  if s.rooms.any (fun r => r.room_code == rc) then
    (some new_id,
      { s with participants := s.participants ++ [⟨new_id, username, rc, now⟩] })
  else
    (none, s)

/-- `Database.remove_participant`: `DELETE FROM votes WHERE user_id = ? AND
room_code = ?` then `DELETE FROM participants WHERE user_id = ? AND
room_code = ?`. -/
def remove_participant (s : DBState) (uid rc : String) : DBState :=
  { s with
    votes := s.votes.filter (fun v => !(v.user_id == uid && v.room_code == rc)),
    participants :=
      s.participants.filter (fun p => !(p.user_id == uid && p.room_code == rc)) }

/-- `Database.save_vote`: `SELECT id FROM votes WHERE user_id = ? AND
movie_id = ? AND room_code = ?` (`fetchone` = `List.find?`); if a row is
found, `UPDATE votes SET vote = ?, voted_at = ? WHERE id = ?`, otherwise
`INSERT` a new row with the next autoincrement id.  No existence check of
the room, the voter or the movie is performed. -/
def save_vote (s : DBState) (uid : String) (mid : Int) (rc : String)
    (v : Int) (t : Nat) : DBState :=
  match s.votes.find?
      (fun r => r.user_id == uid && r.movie_id == mid && r.room_code == rc) with
  | some r =>
      { s with
        votes := s.votes.map (fun x =>
          if x.id = r.id then { x with vote := v, voted_at := t } else x) }
  | none =>
      { s with
        votes := s.votes ++ [⟨s.next_vote_id, uid, mid, rc, v, t⟩],
        next_vote_id := s.next_vote_id + 1 }

/-- The rows of `votes` for one (user, movie, room) triple — the rows the
`save_vote` existence check ranges over. -/
def votesFor (s : DBState) (uid : String) (mid : Int) (rc : String) :
    List VoteRow :=
  s.votes.filter
    (fun r => r.user_id == uid && r.movie_id == mid && r.room_code == rc)

/-- `... FROM votes v WHERE v.room_code = ? AND v.vote = 1 AND
v.movie_id = ?` — the approval rows of one movie in one room, as grouped by
the inner query of `get_matched_movies`. -/
def yesRows (s : DBState) (rc : String) (mid : Int) : List VoteRow :=
  s.votes.filter
    (fun v => v.room_code == rc && v.vote == 1 && v.movie_id == mid)

/-- `COUNT(DISTINCT v.user_id)` over `yesRows`: the distinct user_ids
holding a live approval vote row on the movie, participants or not. -/
def distinctYesVoters (s : DBState) (rc : String) (mid : Int) : List String :=
  ((yesRows s rc mid).map (·.user_id)).dedup

/-- The inner query of `get_matched_movies`: `SELECT v.movie_id FROM votes v
WHERE v.room_code = ? AND v.vote = 1 GROUP BY v.movie_id HAVING
COUNT(DISTINCT v.user_id) = ?`.  The group keys are the distinct movie_ids
among the room's approval rows; HAVING keeps those whose distinct-voter
count equals the participant count. -/
def matchedIds (s : DBState) (rc : String) : List Int :=
  (((s.votes.filter (fun v => v.room_code == rc && v.vote == 1)).map
      (·.movie_id)).dedup).filter
    (fun mid => (distinctYesVoters s rc mid).length == participant_count s rc)

/-- `Database.get_matched_movies`: the movie rows of the room whose
`movie_id` is in the inner query's result. -/
def get_matched_movies (s : DBState) (rc : String) : List MovieRow :=
  s.movies.filter
    (fun m => m.room_code == rc && (matchedIds s rc).contains m.movie_id)

/-- The distinct movie_ids among a room's `movies` rows — the group keys of
the LEFT JOIN query in `count_matched_movies`. -/
def roomMovieIds (s : DBState) (rc : String) : List Int :=
  ((s.movies.filter (fun m => m.room_code == rc)).map (·.movie_id)).dedup

/-- The number of `movies` rows of the room carrying one movie_id (ordinarily
1, but `add_movies_to_room` never deduplicates its input). -/
def movieRowCount (s : DBState) (rc : String) (mid : Int) : Nat :=
  (s.movies.filter (fun m => m.room_code == rc && m.movie_id == mid)).length

/-- `Database.count_matched_movies`: `SELECT COUNT(*) FROM (SELECT
m.movie_id, COUNT(v.id) FROM movies m LEFT JOIN votes v ON m.movie_id =
v.movie_id AND m.room_code = v.room_code AND v.vote = 1 WHERE m.room_code =
? GROUP BY m.movie_id HAVING COUNT(v.id) = ?)`.  For the group of a
movie_id, the LEFT JOIN produces one row per (movie row, approval row) pair,
so `COUNT(v.id)` — which skips the NULLs produced when a movie has no
approval row at all — is `movieRowCount * (yesRows).length`.  Note this
counts approval ROWS, not distinct approving users, and compares with the
participant count even when that count is 0. -/
def count_matched_movies (s : DBState) (rc : String) : Nat :=
  ((roomMovieIds s rc).filter
    (fun mid =>
      movieRowCount s rc mid * (yesRows s rc mid).length
        == participant_count s rc)).length

/-- The dictionary returned by `Database.get_vote_progress`. -/
structure Progress where
  total_movies : Nat
  movies_with_all_votes : Nat
  participants : Nat
deriving DecidableEq

/-- `Database.get_vote_progress`: total movies and participant count by
direct `SELECT COUNT(*)`, matched count delegated to
`count_matched_movies`. -/
def get_vote_progress (s : DBState) (rc : String) : Progress :=
  ⟨(s.movies.filter (fun m => m.room_code == rc)).length,
   count_matched_movies s rc,
   participant_count s rc⟩

/-- Character set of `random.choices(string.ascii_uppercase + string.digits)`:
an uppercase ASCII letter or an ASCII digit. -/
def isCodeChar (c : Char) : Bool :=
  (65 ≤ c.toNat && c.toNat ≤ 90) || (48 ≤ c.toNat && c.toNat ≤ 57)

/-- `Database.generate_room_code`.  The source draws a random 6-character
code, checks `SELECT room_code FROM rooms WHERE room_code = ?`, and on a
collision calls ITSELF recursively, without any retry cap.  The random
generator is embedded as `stream : Nat → String` (the k-th draw) and the
unbounded recursion is made total with an explicit `fuel` argument: `none`
means the recursion has not returned within `fuel` draws, so genuine
non-termination shows up as `none` for every fuel. -/
def generate_room_code (taken : List String) (stream : Nat → String) :
    Nat → Nat → Option String
  | _, 0 => none
  | k, fuel + 1 =>
    if stream k ∈ taken then generate_room_code taken stream (k + 1) fuel
    else some (stream k)

/-- The `POST /api/rooms/join` endpoint of main.py around
`Database.join_room`: a `None` user_id becomes `HTTPException(404)` (the
store untouched); a user_id becomes the `JoinRoomResponse` triple
(user_id, room_code, username).  `Except Nat` carries the HTTP status of
the typed failure. -/
def joinRoomEndpoint (s : DBState) (rc username new_id : String) (now : Nat) :
    Except Nat (String × String × String) × DBState :=
  match join_room s rc username new_id now with
  | (none, s') => (Except.error 404, s')
  | (some uid, s') => (Except.ok (uid, rc, username), s')

/-- The body of a `POST /api/rooms/join` request before pydantic validation:
each field either absent (`none`) or a string.  `JoinRoomRequest` declares
`room_code : str` and `username : str` with no further validator. -/
structure RawJoinRequest where
  room_code : Option String
  username : Option String
deriving DecidableEq

/-- Pydantic validation of `JoinRoomRequest`: it only checks that both
fields are present (and are strings, which the embedding guarantees by
type); any present string — the empty string included — passes.  A missing
field is FastAPI's 422 validation failure. -/
def validateJoin (req : RawJoinRequest) : Except Nat (String × String) :=
  match req.room_code, req.username with
  | some rc, some un => Except.ok (rc, un)
  | _, _ => Except.error 422

/-- The body of a `POST /api/vote` request before pydantic validation.
`VoteRequest` declares `user_id : str`, `movie_id : int`, `room_code : str`,
`vote : int` with no range constraint on `vote`. -/
structure RawVoteRequest where
  user_id : Option String
  movie_id : Option Int
  room_code : Option String
  vote : Option Int
deriving DecidableEq

/-- Pydantic validation of `VoteRequest`: presence (and int-ness) of the
four fields only; every integer vote value passes. -/
def validateVote (req : RawVoteRequest) :
    Except Nat (String × Int × String × Int) :=
  match req.user_id, req.movie_id, req.room_code, req.vote with
  | some u, some m, some rc, some v => Except.ok (u, m, rc, v)
  | _, _, _, _ => Except.error 422

/-- The `POST /api/rooms/join` route as a whole: pydantic validation, then
the endpoint body.  On a validation failure nothing runs and the store is
unchanged. -/
def joinApi (s : DBState) (req : RawJoinRequest) (new_id : String)
    (now : Nat) : Except Nat (String × String × String) × DBState :=
  match validateJoin req with
  | Except.error e => (Except.error e, s)
  | Except.ok (rc, un) => joinRoomEndpoint s rc un new_id now

/-- The `POST /api/vote` route as a whole: pydantic validation, then
`db.save_vote` followed by `db.get_vote_progress` on the updated store. -/
def voteApi (s : DBState) (req : RawVoteRequest) (t : Nat) :
    Except Nat Progress × DBState :=
  match validateVote req with
  | Except.error e => (Except.error e, s)
  | Except.ok (u, m, rc, v) =>
      let s' := save_vote s u m rc v t
      (Except.ok (get_vote_progress s' rc), s')

/-- `ConnectionManager.active_connections`: the room-code → channel-list
dictionary, channels abstracted to numeric handles. -/
def Registry := List (String × List Nat)

instance : DecidableEq Registry := by
  unfold Registry
  exact inferInstance

/-- The channel list the broadcast loop iterates over: the dictionary entry
of the room, or nothing when the room has no entry. -/
def roomChannels (registry : Registry) (rc : String) : List Nat :=
  match registry.find? (fun e => e.1 == rc) with
  | some e => e.2
  | none => []

/-- `ConnectionManager.broadcast_to_room`: for each channel of the room, in
order, `try: await connection.send_json(message) except Exception: print`.
`sendOk` tells which channels the send succeeds on.  The result is the list
of channels actually delivered to, paired with the registry afterwards: a
failed send is swallowed (the loop continues, nothing is raised) and the
method never touches `active_connections`, so the registry comes back
unchanged. -/
def broadcast_to_room (registry : Registry) (sendOk : Nat → Bool)
    (rc : String) : List Nat × Registry :=
  ((roomChannels registry rc).filter sendOk, registry)

/-- The spec's matching predicate, written from the spec's words for
comparison with `get_matched_movies`: the distinct PARTICIPANTS of the room
who currently hold a live approval vote row on the movie (a voter who is
not a current participant of the room does not count here). -/
def participantApprovers (s : DBState) (rc : String) (mid : Int) :
    List String :=
  ((s.participants.filter (fun p =>
      p.room_code == rc &&
      s.votes.any (fun v => v.user_id == p.user_id && v.movie_id == mid &&
        v.room_code == rc && v.vote == 1))).map (·.user_id)).dedup

/-- Room GH0STA: one participant `p1` who has cast no vote, one candidate
(movie 101), and one approval vote row left by `ghost1`, a user_id that is
not a participant of the room (reachable because `save_vote` validates
nothing, see `VoteRequest`). -/
def ghostState : DBState :=
  ⟨[⟨"GH0STA", 0, "active"⟩],
   [⟨"p1", "Pat", "GH0STA", 0⟩],
   [⟨1, "GH0STA", 101, "d101"⟩],
   [⟨1, "ghost1", 101, "GH0STA", 1, 0⟩],
   2⟩

/-- Room XY99ZZ: one candidate (movie 102), zero participants, zero
votes — the state right after room creation, before anyone joins. -/
def freshRoomState : DBState :=
  ⟨[⟨"XY99ZZ", 0, "active"⟩], [], [⟨1, "XY99ZZ", 102, "d102"⟩], [], 0⟩

/-- Room AB12CD: two candidates (101, 102), zero participants, and one
stale approval row on 101 by the departed user `gone` (not a participant of
any room). -/
def emptyRoomStaleVotes : DBState :=
  ⟨[⟨"AB12CD", 0, "active"⟩],
   [],
   [⟨1, "AB12CD", 101, "d101"⟩, ⟨2, "AB12CD", 102, "d102"⟩],
   [⟨1, "gone", 101, "AB12CD", 1, 0⟩],
   2⟩

/-- Room GH0STB: one participant `q1` who has cast no vote, one candidate
(movie 55) whose only approval row is by the non-participant `ghost2`. -/
def ghostStateB : DBState :=
  ⟨[⟨"GH0STB", 0, "active"⟩],
   [⟨"q1", "Quinn", "GH0STB", 0⟩],
   [⟨1, "GH0STB", 55, "d55"⟩],
   [⟨1, "ghost2", 55, "GH0STB", 1, 0⟩],
   2⟩

/-- C1 (counterexample).  In `ghostState` the room has one participant and
movie 101's only approval row was stored by `ghost1`, who is not a
participant, so the number of distinct participants holding a live approval
vote on 101 is 0 ≠ 1 = participant count — yet `get_matched_movies` returns
the candidate, because the SQL counts `DISTINCT v.user_id` over the vote
rows without checking membership.  The claim's characterization is
therefore false as stated. -/
theorem C1_ghost_vote_counterexample :
    (⟨1, "GH0STA", 101, "d101"⟩ : MovieRow) ∈
        get_matched_movies ghostState "GH0STA" ∧
      (participantApprovers ghostState "GH0STA" 101).length ≠
        participant_count ghostState "GH0STA" := by
  decide

/-- C2.  The matched count computed by `count_matched_movies` (the
`movies_with_all_votes` field of `get_vote_progress`) does NOT always equal
the number of candidates returned by `get_matched_movies` on the same
state: in `freshRoomState` (one candidate, zero participants, zero votes —
the state of every room between creation and the first join) the LEFT JOIN
query counts the candidate because its approval-row count 0 equals the
participant count 0, while `get_matched_movies` returns nothing, so
progress reports 1 matched movie where the match list is empty. -/
theorem C2_count_disagrees_with_matches :
    count_matched_movies freshRoomState "XY99ZZ" = 1 ∧
      (get_matched_movies freshRoomState "XY99ZZ").length = 0 ∧
      get_vote_progress freshRoomState "XY99ZZ" = ⟨1, 1, 0⟩ := by
  decide

/-- C3.  With zero participants, `get_matched_movies` does return the empty
list regardless of stale vote rows (the GROUP BY only forms groups over
existing approval rows, whose distinct-voter count is never 0), but the
matched count reported by progress is NOT 0: in `emptyRoomStaleVotes`
(two candidates, zero participants, one stale approval row on candidate
101) `count_matched_movies` counts candidate 102 — the one with no approval
rows — and progress reports `⟨2, 1, 0⟩` instead of a matched count of 0. -/
theorem C3_zero_participants_count_bug :
    participant_count emptyRoomStaleVotes "AB12CD" = 0 ∧
      get_matched_movies emptyRoomStaleVotes "AB12CD" = [] ∧
      count_matched_movies emptyRoomStaleVotes "AB12CD" = 1 ∧
      get_vote_progress emptyRoomStaleVotes "AB12CD" = ⟨2, 1, 0⟩ := by
  decide

lemma filter_map_of_pred_comp {α : Type} (f : α → α) (p : α → Bool)
    (hf : ∀ x, p (f x) = p x) (l : List α) :
    (l.map f).filter p = (l.filter p).map f := by
  induction l with
  | nil => rfl
  | cons x xs ih =>
    cases hpx : p x <;>
      simp [List.filter_cons, hpx, hf x, ih]

lemma eq_singleton_of_length_le_one {α : Type} {l : List α} {a : α}
    (h : l.length ≤ 1) (ha : a ∈ l) : l = [a] := by
  cases l with
  | nil => cases ha
  | cons x xs =>
    cases xs with
    | nil =>
      simp only [List.mem_singleton] at ha
      subst ha
      rfl
    | cons y ys =>
      simp only [List.length_cons] at h
      omega

/-- Core upsert lemma for `save_vote`: if the store holds at most one vote
row for the (user, movie, room) triple — which is the case on every store
reachable through `save_vote` alone — then after `save_vote` there is
exactly one row for the triple, carrying the new value and timestamp. -/
lemma save_vote_votesFor (s : DBState) (uid : String) (mid : Int)
    (rc : String) (v : Int) (t : Nat)
    (h : (votesFor s uid mid rc).length ≤ 1) :
    ∃ i, votesFor (save_vote s uid mid rc v t) uid mid rc =
      [⟨i, uid, mid, rc, v, t⟩] := by
  unfold save_vote votesFor at *
  cases hfind : s.votes.find?
      (fun r => r.user_id == uid && r.movie_id == mid && r.room_code == rc) with
  | none =>
    refine ⟨s.next_vote_id, ?_⟩
    simp only [hfind, List.filter_append]
    have hnone := List.find?_eq_none.mp hfind
    rw [List.filter_eq_nil_iff.mpr (by intro a ha hpa; exact hnone a ha hpa)]
    simp
  | some r =>
    have hr := List.find?_some hfind
    simp only [Bool.and_eq_true, beq_iff_eq] at hr
    obtain ⟨⟨hu, hm⟩, hrc⟩ := hr
    have hmem : r ∈ s.votes := List.mem_of_find?_eq_some hfind
    refine ⟨r.id, ?_⟩
    simp only [hfind]
    rw [filter_map_of_pred_comp _ _ (fun x => by
      by_cases hx : x.id = r.id <;> simp [hx])]
    have hfil : s.votes.filter
        (fun r => r.user_id == uid && r.movie_id == mid && r.room_code == rc)
        = [r] := by
      refine eq_singleton_of_length_le_one h (List.mem_filter.mpr ⟨hmem, ?_⟩)
      simp [hu, hm, hrc]
    rw [hfil]
    simp only [List.map_cons, List.map_nil, if_pos rfl]
    cases r
    simp_all

/-- Unconditional existence: `save_vote` always records a row for the
triple with the given value, whatever the store looked like before (no
room, participant or movie existence is checked). -/
lemma save_vote_creates (s : DBState) (uid : String) (mid : Int)
    (rc : String) (v : Int) (t : Nat) :
    ∃ r ∈ (save_vote s uid mid rc v t).votes,
      r.user_id = uid ∧ r.movie_id = mid ∧ r.room_code = rc ∧
        r.vote = v ∧ r.voted_at = t := by
  unfold save_vote
  cases hfind : s.votes.find?
      (fun r => r.user_id == uid && r.movie_id == mid && r.room_code == rc) with
  | none =>
    exact ⟨⟨s.next_vote_id, uid, mid, rc, v, t⟩, by simp, rfl, rfl, rfl, rfl, rfl⟩
  | some r =>
    have hr := List.find?_some hfind
    simp only [Bool.and_eq_true, beq_iff_eq] at hr
    obtain ⟨⟨hu, hm⟩, hrc⟩ := hr
    have hmem : r ∈ s.votes := List.mem_of_find?_eq_some hfind
    refine ⟨{ r with vote := v, voted_at := t }, ?_, hu, hm, hrc, rfl, rfl⟩
    simp only [List.mem_map]
    exact ⟨r, hmem, by simp⟩

/-- C4.  `save_vote` is an upsert with last-write-wins semantics: starting
from a store holding at most one vote row for the (participant, candidate,
room) triple — the invariant every `save_vote`-reachable store satisfies —
any nonempty sequence of `save_vote` calls for the triple (written as
`init ++ [(v, t)]` so the last call is explicit) leaves exactly one vote
row for the pair, and that row carries the value and timestamp of the last
call.  `save_vote` is a total function of the store, so casting a second
vote never errors. -/
theorem C4_save_vote_upsert_last_write_wins (s : DBState) (uid : String)
    (mid : Int) (rc : String)
    (h : (votesFor s uid mid rc).length ≤ 1)
    (init : List (Int × Nat)) (v : Int) (t : Nat) :
    ∃ i, votesFor
        ((init ++ [(v, t)]).foldl
          (fun st c => save_vote st uid mid rc c.1 c.2) s) uid mid rc =
      [⟨i, uid, mid, rc, v, t⟩] := by
  induction init generalizing s with
  | nil =>
    simpa using save_vote_votesFor s uid mid rc v t h
  | cons c cs ih =>
    obtain ⟨j, hj⟩ := save_vote_votesFor s uid mid rc c.1 c.2 h
    have h1 : (votesFor (save_vote s uid mid rc c.1 c.2) uid mid rc).length ≤ 1 := by
      rw [hj]; simp
    simpa using ih (save_vote s uid mid rc c.1 c.2) h1

/-- C4 (witness).  On the empty store, voting YES then NO on movie 101 in
room AB12CD leaves exactly one vote row for (p1, 101, AB12CD), holding the
second call's value 0 and timestamp 9. -/
theorem C4_save_vote_upsert_witness :
    (votesFor emptyDB "p1" 101 "AB12CD").length ≤ 1 ∧
      ∃ i, votesFor
          (([((1 : Int), (5 : Nat))] ++ [((0 : Int), (9 : Nat))]).foldl
            (fun st c => save_vote st "p1" 101 "AB12CD" c.1 c.2) emptyDB)
          "p1" 101 "AB12CD" =
        [⟨i, "p1", 101, "AB12CD", 0, 9⟩] :=
  ⟨by decide,
   C4_save_vote_upsert_last_write_wins emptyDB "p1" 101 "AB12CD" (by decide)
     [((1 : Int), (5 : Nat))] 0 9⟩

lemma filter_idem {α : Type} (p : α → Bool) (l : List α) :
    (l.filter p).filter p = l.filter p := by
  rw [List.filter_filter]
  simp

/-- C5.  `remove_participant` removes the participant row and every one of
the participant's vote rows in the room: afterwards no vote row referencing
the departed user remains in the room, no participant row either, the
operation is idempotent (removing an already-removed participant changes
nothing and does not error — the function is total), and the departed user
never appears among the distinct approval voters that
`get_matched_movies` counts. -/
theorem C5_remove_participant_cleanup (s : DBState) (uid rc : String) :
    (remove_participant s uid rc).votes.filter
        (fun v => v.user_id == uid && v.room_code == rc) = [] ∧
      (remove_participant s uid rc).participants.filter
        (fun p => p.user_id == uid && p.room_code == rc) = [] ∧
      remove_participant (remove_participant s uid rc) uid rc =
        remove_participant s uid rc ∧
      ∀ mid : Int, uid ∉ distinctYesVoters (remove_participant s uid rc) rc mid := by
  refine ⟨?_, ?_, ?_, ?_⟩
  · rw [List.filter_eq_nil_iff]
    intro v hv
    have := (List.mem_filter.mp hv).2
    simp_all
    tauto
  · rw [List.filter_eq_nil_iff]
    intro p hp
    have := (List.mem_filter.mp hp).2
    simp_all
    tauto
  · simp [remove_participant, filter_idem]
  · intro mid hmem
    unfold distinctYesVoters yesRows remove_participant at hmem
    simp only [List.mem_dedup, List.mem_map, List.mem_filter,
      Bool.and_eq_true, Bool.not_eq_true', Bool.and_eq_false_iff,
      beq_iff_eq, beq_eq_false_iff_ne] at hmem
    tauto

/-- C6.  The join endpoint around `Database.join_room`: when no room row
carries the requested code, the call fails with the typed HTTP 404
("Room not found") and the store comes back exactly unchanged; when the
room exists and the freshly drawn identifier is not already in use (the
16-character random draw is assumed collision-free, as the `user_id`
PRIMARY KEY requires), the endpoint returns that identifier and the store
records the new membership, the identifier appearing exactly once among
the participants. -/
theorem C6_join_room_endpoint (s : DBState) (rc username new_id : String)
    (now : Nat) :
    ((∀ r ∈ s.rooms, r.room_code ≠ rc) →
      joinRoomEndpoint s rc username new_id now = (Except.error 404, s)) ∧
    ((∃ r ∈ s.rooms, r.room_code = rc) →
      (∀ p ∈ s.participants, p.user_id ≠ new_id) →
      (joinRoomEndpoint s rc username new_id now).1 =
          Except.ok (new_id, rc, username) ∧
        (joinRoomEndpoint s rc username new_id now).2.participants =
          s.participants ++ [⟨new_id, username, rc, now⟩] ∧
        ((joinRoomEndpoint s rc username new_id now).2.participants.filter
          (fun p => p.user_id == new_id)).length = 1) := by
  constructor
  · intro hno
    have hany : s.rooms.any (fun r => r.room_code == rc) = false := by
      rw [List.any_eq_false]
      intro r hr
      simpa using hno r hr
    simp [joinRoomEndpoint, join_room, hany]
  · intro hyes hfresh
    have hany : s.rooms.any (fun r => r.room_code == rc) = true := by
      rw [List.any_eq_true]
      obtain ⟨r, hr, hrc⟩ := hyes
      exact ⟨r, hr, by simpa using hrc⟩
    refine ⟨?_, ?_, ?_⟩
    · simp [joinRoomEndpoint, join_room, hany]
    · simp [joinRoomEndpoint, join_room, hany]
    · simp only [joinRoomEndpoint, join_room, hany, if_pos, List.filter_append]
      rw [List.filter_eq_nil_iff.mpr (by
        intro p hp
        simpa using hfresh p hp)]
      simp

/-- C6 (witness).  In `ghostState` (whose only room is GH0STA): joining the
unknown room ZZZZZZ fails with 404 leaving the store unchanged, and joining
GH0STA with the fresh identifier u2u2 succeeds and records the membership
exactly once. -/
theorem C6_join_room_endpoint_witness :
    joinRoomEndpoint ghostState "ZZZZZZ" "Sam" "u2u2" 7 =
        (Except.error 404, ghostState) ∧
      (joinRoomEndpoint ghostState "GH0STA" "Sam" "u2u2" 7).1 =
        Except.ok ("u2u2", "GH0STA", "Sam") :=
  ⟨(C6_join_room_endpoint ghostState "ZZZZZZ" "Sam" "u2u2" 7).1 (by decide),
   ((C6_join_room_endpoint ghostState "GH0STA" "Sam" "u2u2" 7).2
     (by decide) (by decide)).1⟩

/-- C7.  `save_vote` validates nothing: for every store and every user_id,
movie_id, room_code and integer vote value it succeeds (it is a total
function) and records a matching row — shown unconditionally, hence also
when the room does not exist, the voter is not a participant, or the movie
is not a candidate; concretely, on the empty store (no rooms at all) it
still inserts the row.  And such a stored approval row is counted by the
distinct-voter matching query: in `ghostStateB` the only approval on movie
55 is by `ghost2`, who is no participant, yet the candidate is returned by
`get_matched_movies` because the ghost's row makes the distinct-voter count
1 = participant count. -/
theorem C7_save_vote_no_validation :
    (∀ (s : DBState) (uid : String) (mid : Int) (rc : String) (v : Int)
        (t : Nat),
      ∃ r ∈ (save_vote s uid mid rc v t).votes,
        r.user_id = uid ∧ r.movie_id = mid ∧ r.room_code = rc ∧ r.vote = v) ∧
      (save_vote emptyDB "u1" 7 "NOROOM" 1 0).votes =
        [⟨0, "u1", 7, "NOROOM", 1, 0⟩] ∧
      get_matched_movies ghostStateB "GH0STB" = [⟨1, "GH0STB", 55, "d55"⟩] ∧
      ∀ p ∈ ghostStateB.participants, p.user_id ≠ "ghost2" := by
  refine ⟨?_, by decide, by decide, by decide⟩
  intro s uid mid rc v t
  obtain ⟨r, hr, h1, h2, h3, h4, _⟩ := save_vote_creates s uid mid rc v t
  exact ⟨r, hr, h1, h2, h3, h4⟩

/-- A registry with one room, AB12CD, holding three channels. -/
def reg8 : Registry := [("AB12CD", [1, 2, 3])]

/-- A delivery oracle under which sending to channel 2 fails and sending to
the other channels succeeds. -/
def ok8 : Nat → Bool := fun c => !(c == 2)

/-- C8 (counterexample).  Broadcasting to room AB12CD when the send to
channel 2 fails: the message is still delivered to channels 1 AND 3 (the
failure aborts nothing and raises nothing), but — against the claim — the
failing channel is NOT removed from the registry: the registry comes back
unchanged and channel 2 is still registered for the room. -/
theorem C8_failing_channel_not_removed :
    (broadcast_to_room reg8 ok8 "AB12CD").1 = [1, 3] ∧
      (broadcast_to_room reg8 ok8 "AB12CD").2 = reg8 ∧
      2 ∈ roomChannels (broadcast_to_room reg8 ok8 "AB12CD").2 "AB12CD" := by
  decide

/-- C8 (amended).  `broadcast_to_room` attempts delivery to every currently
registered channel of the room independently: a channel is delivered to iff
it is registered for the room and its own send succeeds, whatever happens
on the other channels; the per-channel failure is swallowed (the method
never raises, being a total function); but the failing channel is not
evicted — the registry is returned exactly as it was (eviction happens only
through `ConnectionManager.disconnect` on the websocket receive path). -/
theorem C8_broadcast_best_effort (registry : Registry) (sendOk : Nat → Bool)
    (rc : String) :
    (∀ c, c ∈ (broadcast_to_room registry sendOk rc).1 ↔
      c ∈ roomChannels registry rc ∧ sendOk c = true) ∧
    (broadcast_to_room registry sendOk rc).2 = registry := by
  refine ⟨fun c => ?_, rfl⟩
  simp [broadcast_to_room, List.mem_filter]

lemma gen_const_collision_none (fuel : Nat) : ∀ k : Nat,
    generate_room_code ["AAAAAA"] (fun _ => "AAAAAA") k fuel = none := by
  induction fuel with
  | zero => intro k; rfl
  | succ n ih => intro k; simp [generate_room_code, ih]

/-- C9 (counterexample).  `generate_room_code` retries through UNBOUNDED
recursion with no retry cap and no fallback failure mode: against a random
stream every draw of which collides with the existing room AAAAAA, the
recursion never returns — for every fuel the embedding yields `none` (50
shown concretely, then all fuels), so there is no bound after which a
fallback result is produced and code generation does not always
terminate. -/
theorem C9_collision_never_terminates :
    generate_room_code ["AAAAAA"] (fun _ => "AAAAAA") 0 50 = none ∧
      ¬ ∃ fuel code,
        generate_room_code ["AAAAAA"] (fun _ => "AAAAAA") 0 fuel = some code := by
  refine ⟨gen_const_collision_none 50 0, ?_⟩
  rintro ⟨fuel, code, h⟩
  rw [gen_const_collision_none] at h
  cases h

lemma gen_result {taken : List String} {stream : Nat → String} :
    ∀ (fuel k : Nat) (code : String),
      generate_room_code taken stream k fuel = some code →
      code ∉ taken ∧ ∃ n, code = stream n := by
  intro fuel
  induction fuel with
  | zero => intro k code h; cases h
  | succ n ih =>
    intro k code h
    unfold generate_room_code at h
    by_cases hk : stream k ∈ taken
    · rw [if_pos hk] at h
      exact ih (k + 1) code h
    · rw [if_neg hk] at h
      cases h
      exact ⟨hk, k, rfl⟩

lemma gen_isSome {taken : List String} {stream : Nat → String} :
    ∀ (fuel j : Nat), (∃ i, i < fuel ∧ stream (j + i) ∉ taken) →
      (generate_room_code taken stream j fuel).isSome := by
  intro fuel
  induction fuel with
  | zero =>
    rintro j ⟨i, hi, _⟩
    omega
  | succ n ih =>
    rintro j ⟨i, hi, hfresh⟩
    by_cases hj : stream j ∈ taken
    · unfold generate_room_code
      rw [if_pos hj]
      apply ih (j + 1)
      have hi0 : i ≠ 0 := by
        rintro rfl
        rw [Nat.add_zero] at hfresh
        exact hfresh hj
      obtain ⟨i', rfl⟩ := Nat.exists_eq_succ_of_ne_zero hi0
      refine ⟨i', by omega, ?_⟩
      have harith : j + 1 + i' = j + (i' + 1) := by omega
      rw [harith]
      exact hfresh
    · unfold generate_room_code
      rw [if_neg hj]
      rfl

/-- C9 (amended).  `generate_room_code` regenerates on collision through
unbounded recursion (no bounded loop, no retry cap, no fallback failure
mode): whenever it does return a code, that code is a 6-character string of
uppercase letters and digits (given that every random draw is one) that is
not among the known rooms, and it does return one as soon as any draw
within the available fuel is collision-free — but nothing bounds how long
that takes, and on a stream with no fresh draw it never returns
(`C9_collision_never_terminates`). -/
theorem C9_code_generation (taken : List String) (stream : Nat → String)
    (hstream : ∀ n, (stream n).length = 6 ∧ (stream n).data.all isCodeChar = true) :
    (∀ k fuel code, generate_room_code taken stream k fuel = some code →
      code ∉ taken ∧ code.length = 6 ∧ code.data.all isCodeChar = true) ∧
    (∀ fuel, (∃ k, k < fuel ∧ stream k ∉ taken) →
      (generate_room_code taken stream 0 fuel).isSome) := by
  constructor
  · intro k fuel code h
    obtain ⟨hnot, n, rfl⟩ := gen_result fuel k code h
    exact ⟨hnot, (hstream n).1, (hstream n).2⟩
  · rintro fuel ⟨k, hk, hfresh⟩
    refine gen_isSome fuel 0 ⟨k, hk, ?_⟩
    rw [Nat.zero_add]
    exact hfresh

/-- A random stream every draw of which is the valid 6-character code
XK3P9Q. -/
def streamXK : Nat → String := fun _ => "XK3P9Q"

/-- C9 (witness).  With room AAAAAA taken and every draw being XK3P9Q, one
unit of fuel suffices for `generate_room_code` to return a code. -/
theorem C9_code_generation_witness :
    (generate_room_code ["AAAAAA"] streamXK 0 1).isSome :=
  (C9_code_generation ["AAAAAA"] streamXK
      (fun _ => ⟨rfl, by show List.all "XK3P9Q".data isCodeChar = true; decide⟩)).2
    1 ⟨0, by decide, by decide⟩

/-- C10 (counterexample).  Neither `JoinRoomRequest` nor `VoteRequest`
constrains field CONTENT: a join request with the empty username passes
validation and creates a participant row with the empty display name, and a
vote request with vote value 5 (neither 0 nor 1) passes validation and a
vote row holding 5 is recorded — no ValidationError occurs for either. -/
theorem C10_content_accepted_counterexample :
    validateJoin ⟨some "AB12CD", some ""⟩ = Except.ok ("AB12CD", "") ∧
      (joinApi emptyRoomStaleVotes ⟨some "AB12CD", some ""⟩ "u1u1" 0).2.participants
        = [⟨"u1u1", "", "AB12CD", 0⟩] ∧
      validateVote ⟨some "p9", some 101, some "AB12CD", some 5⟩ =
        Except.ok ("p9", 101, "AB12CD", 5) ∧
      (⟨2, "p9", 101, "AB12CD", 5, 3⟩ : VoteRow) ∈
        (voteApi emptyRoomStaleVotes
          ⟨some "p9", some 101, some "AB12CD", some 5⟩ 3).2.votes :=
  ⟨rfl, by decide, rfl, by decide⟩

/-- C10 (amended).  Pydantic validation of the two request models checks
field presence (and type) only: any present username string — the empty
string included — and any present integer vote value pass and reach the
store, a join on an existing room then recording a participant with that
username and a vote request always recording a row with that value; only a
missing field fails, with the typed 422 validation failure, and then the
store is untouched by construction of the route. -/
theorem C10_presence_only_validation (s : DBState) (rc un nid : String)
    (now : Nat) (u : String) (m v : Int) (t : Nat) :
    validateJoin ⟨some rc, some un⟩ = Except.ok (rc, un) ∧
      validateJoin ⟨none, some un⟩ = Except.error 422 ∧
      validateJoin ⟨some rc, none⟩ = Except.error 422 ∧
      validateVote ⟨some u, some m, some rc, some v⟩ = Except.ok (u, m, rc, v) ∧
      ((∃ r ∈ s.rooms, r.room_code = rc) →
        (joinApi s ⟨some rc, some un⟩ nid now).2.participants =
          s.participants ++ [⟨nid, un, rc, now⟩]) ∧
      (∃ r ∈ (voteApi s ⟨some u, some m, some rc, some v⟩ t).2.votes,
        r.user_id = u ∧ r.movie_id = m ∧ r.room_code = rc ∧ r.vote = v) := by
  refine ⟨rfl, rfl, rfl, rfl, ?_, ?_⟩
  · intro hyes
    have hany : s.rooms.any (fun r => r.room_code == rc) = true := by
      rw [List.any_eq_true]
      obtain ⟨r, hr, hrc⟩ := hyes
      exact ⟨r, hr, by simpa using hrc⟩
    simp [joinApi, validateJoin, joinRoomEndpoint, join_room, hany]
  · simp only [voteApi, validateVote]
    obtain ⟨r, hr, h1, h2, h3, h4, _⟩ := save_vote_creates s u m rc v t
    exact ⟨r, hr, h1, h2, h3, h4⟩

/-- C10 (witness).  In `freshRoomState` (room XY99ZZ, no participants),
joining with the empty username appends the empty-named participant. -/
theorem C10_presence_only_validation_witness :
    (joinApi freshRoomState ⟨some "XY99ZZ", some ""⟩ "w1w1" 4).2.participants =
      freshRoomState.participants ++ [⟨"w1w1", "", "XY99ZZ", 4⟩] :=
  (C10_presence_only_validation freshRoomState "XY99ZZ" "" "w1w1" 4
      "p9" 102 5 3).2.2.2.2.1 ⟨⟨"XY99ZZ", 0, "active"⟩, by decide, rfl⟩

lemma mem_map_user_id_yesRows {s : DBState} {rc : String} {mid : Int}
    {u : String} :
    u ∈ (yesRows s rc mid).map (·.user_id) ↔
      ∃ v ∈ s.votes, v.user_id = u ∧ v.room_code = rc ∧ v.vote = 1 ∧
        v.movie_id = mid := by
  constructor
  · intro h
    obtain ⟨v, hv, rfl⟩ := List.mem_map.mp h
    obtain ⟨hvmem, hcond⟩ := List.mem_filter.mp hv
    simp only [Bool.and_eq_true, beq_iff_eq] at hcond
    exact ⟨v, hvmem, rfl, hcond.1.1, hcond.1.2, hcond.2⟩
  · rintro ⟨v, hvmem, rfl, hrc, h1, hmid⟩
    refine List.mem_map.mpr ⟨v, List.mem_filter.mpr ⟨hvmem, ?_⟩, rfl⟩
    simp [yesRows, hrc, h1, hmid]

lemma mem_map_user_id_approvers {s : DBState} {rc : String} {mid : Int}
    {u : String} :
    u ∈ (s.participants.filter (fun p =>
        p.room_code == rc &&
        s.votes.any (fun v => v.user_id == p.user_id && v.movie_id == mid &&
          v.room_code == rc && v.vote == 1))).map (·.user_id) ↔
      ∃ p ∈ s.participants, p.user_id = u ∧ p.room_code = rc ∧
        ∃ v ∈ s.votes, v.user_id = u ∧ v.movie_id = mid ∧ v.room_code = rc ∧
          v.vote = 1 := by
  constructor
  · intro h
    obtain ⟨p, hp, rfl⟩ := List.mem_map.mp h
    obtain ⟨hpmem, hcond⟩ := List.mem_filter.mp hp
    simp only [Bool.and_eq_true, beq_iff_eq] at hcond
    obtain ⟨hprc, hany⟩ := hcond
    obtain ⟨v, hvmem, hvcond⟩ := List.any_eq_true.mp hany
    simp only [Bool.and_eq_true, beq_iff_eq] at hvcond
    exact ⟨p, hpmem, rfl, hprc, v, hvmem, hvcond.1.1.1, hvcond.1.1.2,
      hvcond.1.2, hvcond.2⟩
  · rintro ⟨p, hpmem, rfl, hprc, v, hvmem, hvu, hvmid, hvrc, hv1⟩
    refine List.mem_map.mpr ⟨p, List.mem_filter.mpr ⟨hpmem, ?_⟩, rfl⟩
    simp only [Bool.and_eq_true, beq_iff_eq]
    exact ⟨hprc, List.any_eq_true.mpr ⟨v, hvmem, by simp [hvu, hvmid, hvrc, hv1]⟩⟩

/-- Under the spec's vote/participant co-existence invariant — every
approval row in the room was cast by a current participant of the room —
the user_ids the SQL counts (`COUNT(DISTINCT v.user_id)` over the approval
rows) are exactly the user_ids of the participants holding a live approval
vote, so the two distinct counts agree. -/
lemma distinctYesVoters_length_eq_approvers {s : DBState} {rc : String}
    {mid : Int}
    (hwf : ∀ v ∈ s.votes, v.room_code = rc → v.vote = 1 →
      ∃ p ∈ s.participants, p.user_id = v.user_id ∧ p.room_code = rc) :
    (distinctYesVoters s rc mid).length =
      (participantApprovers s rc mid).length := by
  unfold distinctYesVoters participantApprovers
  rw [← List.card_toFinset, ← List.card_toFinset]
  congr 1
  ext u
  simp only [List.mem_toFinset]
  rw [mem_map_user_id_yesRows, mem_map_user_id_approvers]
  constructor
  · rintro ⟨v, hvmem, hvu, hvrc, hv1, hvmid⟩
    obtain ⟨p, hpmem, hpu, hprc⟩ := hwf v hvmem hvrc hv1
    exact ⟨p, hpmem, by rw [hpu, hvu], hprc, v, hvmem, hvu, hvmid, hvrc, hv1⟩
  · rintro ⟨p, hpmem, hpu, hprc, v, hvmem, hvu, hvmid, hvrc, hv1⟩
    exact ⟨v, hvmem, hvu, hvrc, hv1, hvmid⟩

lemma mem_matchedIds {s : DBState} {rc : String} {mid : Int} :
    mid ∈ matchedIds s rc ↔
      ((∃ v ∈ s.votes, v.room_code = rc ∧ v.vote = 1 ∧ v.movie_id = mid) ∧
        (distinctYesVoters s rc mid).length = participant_count s rc) := by
  unfold matchedIds
  rw [List.mem_filter, List.mem_dedup]
  constructor
  · rintro ⟨hmem, hlen⟩
    obtain ⟨v, hv, rfl⟩ := List.mem_map.mp hmem
    obtain ⟨hvmem, hcond⟩ := List.mem_filter.mp hv
    simp only [Bool.and_eq_true, beq_iff_eq] at hcond hlen
    exact ⟨⟨v, hvmem, hcond.1, hcond.2, rfl⟩, hlen⟩
  · rintro ⟨⟨v, hvmem, hvrc, hv1, hvmid⟩, hlen⟩
    refine ⟨List.mem_map.mpr ⟨v, List.mem_filter.mpr ⟨hvmem, ?_⟩, hvmid⟩, ?_⟩
    · simp [hvrc, hv1]
    · simp [hlen]

/-- C1 (amended).  On every store satisfying the spec's co-existence
invariant (each approval row of the room belongs to a current participant
of the room; `save_vote` alone does not enforce this, see
`C1_ghost_vote_counterexample`) and whose room has at least one participant
(the zero-participant policy is the separate claim about that edge case), a
candidate row of the room is returned by `get_matched_movies` exactly when
the number of distinct participants of the room currently holding a live
approval vote on it equals the room's current total participant count.
Both sides are recomputed from the live rows — no stored flag is involved —
so the characterization re-evaluates as votes are cast or participants
join or leave; the spec's N-votes membership property and its removal
property are instances of this equivalence. -/
theorem C1_matched_characterization (s : DBState) (rc : String)
    (hwf : ∀ v ∈ s.votes, v.room_code = rc → v.vote = 1 →
      ∃ p ∈ s.participants, p.user_id = v.user_id ∧ p.room_code = rc)
    (hpos : 0 < participant_count s rc) :
    ∀ m ∈ s.movies, m.room_code = rc →
      (m ∈ get_matched_movies s rc ↔
        (participantApprovers s rc m.movie_id).length =
          participant_count s rc) := by
  intro m hm hmrc
  have hlen := @distinctYesVoters_length_eq_approvers s rc m.movie_id hwf
  constructor
  · intro h
    obtain ⟨-, hcond⟩ := List.mem_filter.mp h
    simp only [Bool.and_eq_true, beq_iff_eq] at hcond
    have hid : m.movie_id ∈ matchedIds s rc := List.elem_iff.mp hcond.2
    obtain ⟨-, hlenN⟩ := mem_matchedIds.mp hid
    rw [← hlen]
    exact hlenN
  · intro h
    have hlenN : (distinctYesVoters s rc m.movie_id).length =
        participant_count s rc := by rw [hlen]; exact h
    have hne : ∃ v ∈ s.votes, v.room_code = rc ∧ v.vote = 1 ∧
        v.movie_id = m.movie_id := by
      have hpos' : 0 < (distinctYesVoters s rc m.movie_id).length := by
        rw [hlenN]; exact hpos
      obtain ⟨u, hu⟩ :=
        List.exists_mem_of_ne_nil _ (List.length_pos.mp hpos')
      have hu' : u ∈ (yesRows s rc m.movie_id).map (·.user_id) :=
        List.mem_dedup.mp hu
      obtain ⟨v, hvmem, hvu, hvrc, hv1, hvmid⟩ :=
        mem_map_user_id_yesRows.mp hu'
      exact ⟨v, hvmem, hvrc, hv1, hvmid⟩
    have hid : m.movie_id ∈ matchedIds s rc := mem_matchedIds.mpr ⟨hne, hlenN⟩
    refine List.mem_filter.mpr ⟨hm, ?_⟩
    simp only [Bool.and_eq_true, beq_iff_eq]
    exact ⟨hmrc, List.elem_iff.mpr hid⟩

/-- The spec's worked scenario: room AB12CD with candidates 101 and 102 and
participants p1, p2; both approve 101, only p1 approves 102. -/
def matchedScenario : DBState :=
  ⟨[⟨"AB12CD", 0, "active"⟩],
   [⟨"p1", "Ana", "AB12CD", 0⟩, ⟨"p2", "Ben", "AB12CD", 0⟩],
   [⟨1, "AB12CD", 101, "d101"⟩, ⟨2, "AB12CD", 102, "d102"⟩],
   [⟨1, "p1", 101, "AB12CD", 1, 1⟩, ⟨2, "p2", 101, "AB12CD", 1, 2⟩,
    ⟨3, "p1", 102, "AB12CD", 1, 3⟩],
   4⟩

/-- C1 (witness).  In the spec's scenario — two participants, candidate 101
approved by both — the characterization instantiates: candidate 101 is
matched iff its two distinct approving participants equal the participant
count. -/
theorem C1_matched_characterization_witness :
    (⟨1, "AB12CD", 101, "d101"⟩ : MovieRow) ∈
        get_matched_movies matchedScenario "AB12CD" ↔
      (participantApprovers matchedScenario "AB12CD" 101).length =
        participant_count matchedScenario "AB12CD" :=
  C1_matched_characterization matchedScenario "AB12CD" (by decide) (by decide)
    ⟨1, "AB12CD", 101, "d101"⟩ (by decide) (by decide)

end MovieNight
